import Mathlib

/-!
Verification of the kdeps webserver-proxy test backend
(`examples/webserver-proxy/backend/server.py` and
`examples/webserver-proxy/backend/app.py`) against its specification.

The two Python files implement the same tiny HTTP fixture: three GET
routes (`/`, `/api/data`, `/health`) answered with fixed JSON payloads,
anything else answered with a 404.  `server.py` uses the standard
library `http.server` framework; `app.py` uses Flask.  Both are pure
functions of the request target (and of the wall clock, which only
feeds the `timestamp` field of the `/` response), so they embed
directly as Lean functions.  The wall clock is modelled as a string
parameter `now`, standing for the value `datetime.datetime.now().isoformat()`
returns at response time.
-/

/-- A JSON value, as produced by `json.dumps` in Python and by `jsonify`
in Flask for the payloads the backend builds (only strings, integers,
arrays and objects occur; object fields keep their insertion order, as
Python dicts and `json.dumps` do). -/
inductive Json where
  | str : String → Json
  | int : Int → Json
  | arr : List Json → Json
  | obj : List (String × Json) → Json

/-- The body of an HTTP response: absent (the 404 branch of `do_GET` calls
`send_response`/`end_headers` and writes nothing), a JSON document, or an
HTML error page (produced by the `send_error` method of the framework,
outside the code of the repository itself). -/
inductive Body where
  | empty : Body
  | json : Json → Body
  | html : String → Body

/-- An HTTP response as the backend produces it: status code, the
`Content-type` header when one is sent, and the body. -/
structure Response where
  status : Nat
  contentType : Option String
  body : Body

/-- The 404 response of the else-branch of `do_GET` in `server.py`:
`send_response(404)` then `end_headers()`, no content-type header,
nothing written to the body. -/
def notFoundResponse : Response :=
  { status := 404, contentType := none, body := Body.empty }

/-- Embeds `SimpleHandler.do_GET` from
`src/examples/webserver-proxy/backend/server.py`: sequential exact
string comparisons of `self.path` against `/`, `/api/data` and
`/health`, each hit answered 200 with `Content-type: application/json`
and the literal JSON payload built in that branch, the else-branch
answered 404 with no body.  `now` stands for
`datetime.datetime.now().isoformat()` evaluated in the `/` branch. -/
def serverDoGET (path : String) (now : String) : Response :=
  if path = "/" then
    { status := 200
      contentType := some "application/json"
      body := Body.json (Json.obj
        [("message", Json.str "Hello from Python backend!"),
         ("timestamp", Json.str now),
         ("status", Json.str "running"),
         ("proxied_by", Json.str "KDeps WebServer")]) }
  else if path = "/api/data" then
    { status := 200
      contentType := some "application/json"
      body := Body.json (Json.obj
        [("items", Json.arr
          [Json.obj [("id", Json.int 1), ("name", Json.str "Item 1")],
           Json.obj [("id", Json.int 2), ("name", Json.str "Item 2")],
           Json.obj [("id", Json.int 3), ("name", Json.str "Item 3")]])]) }
  else if path = "/health" then
    { status := 200
      contentType := some "application/json"
      body := Body.json (Json.obj [("status", Json.str "healthy")]) }
  else
    notFoundResponse

/-- Embeds the `home` view of
`src/examples/webserver-proxy/backend/app.py`: `jsonify` of a dict with
`message`, `timestamp` and `status` (no `proxied_by`). -/
def flaskHome (now : String) : Response :=
  { status := 200
    contentType := some "application/json"
    body := Body.json (Json.obj
      [("message", Json.str "Hello from Flask backend!"),
       ("timestamp", Json.str now),
       ("status", Json.str "running")]) }

/-- Embeds the `get_data` view of `app.py`. -/
def flaskGetData : Response :=
  { status := 200
    contentType := some "application/json"
    body := Body.json (Json.obj
      [("items", Json.arr
        [Json.obj [("id", Json.int 1), ("name", Json.str "Item 1")],
         Json.obj [("id", Json.int 2), ("name", Json.str "Item 2")],
         Json.obj [("id", Json.int 3), ("name", Json.str "Item 3")]])]) }

/-- Embeds the `health` view of `app.py`. -/
def flaskHealth : Response :=
  { status := 200
    contentType := some "application/json"
    body := Body.json (Json.obj [("status", Json.str "healthy")]) }

/-- The path component of a request target: everything before the first
`?`.  Werkzeug (the HTTP layer under Flask) routes on the path with the
query string stripped, while `server.py` compares the raw `self.path`,
query string included. -/
def requestPath (target : String) : String :=
  String.mk (target.data.takeWhile (fun c => c != '?'))

/-- The numeric value of a hexadecimal digit, `none` for any other
character, accepting both letter cases as `urllib.parse.unquote`
does. -/
def hexVal? (c : Char) : Option Nat :=
  if c.isDigit then
    some (c.toNat - 48)
  else
    let l := (Char.toLower c).toNat
    if 97 ≤ l ∧ l ≤ 102 then some (l - 87) else none

/-- Percent-decoding of a path, as PEP 3333 requires of the WSGI server
before the path reaches the application as `PATH_INFO`: each `%` that
is followed by two hexadecimal digits becomes the character with that
code, an invalid escape stays as a literal `%` (the behaviour of
`urllib.parse.unquote`, which the stdlib WSGI machinery uses). -/
def percentDecodeList : List Char → List Char
  | '%' :: h1 :: h2 :: rest =>
    match hexVal? h1, hexVal? h2 with
    | some a, some b => Char.ofNat (16 * a + b) :: percentDecodeList rest
    | _, _ => '%' :: percentDecodeList (h1 :: h2 :: rest)
  | c :: rest => c :: percentDecodeList rest
  | [] => []

/-- Collapses every run of repeated slashes to a single slash, the
transformation the Werkzeug rule map applies when retrying an unmatched
path with `merge_slashes` (on by default). -/
def collapseSlashes : List Char → List Char
  | '/' :: '/' :: rest => collapseSlashes ('/' :: rest)
  | c :: rest => c :: collapseSlashes rest
  | [] => []

/-- The rule table of `app.py`: the three `@app.route` decorators
register exact rules `/`, `/api/data` and `/health` (no trailing slash,
so Werkzeug matches them exactly, with no redirect in the other
direction). -/
def flaskRoute? (path : String) (now : String) : Option Response :=
  if path = "/" then some (flaskHome now)
  else if path = "/api/data" then some flaskGetData
  else if path = "/health" then some flaskHealth
  else none

/-- Embeds the Werkzeug rule-map matching on an already decoded
`PATH_INFO`: an exact rule hit runs the view; otherwise, when the path
changes under slash merging and the merged path hits a rule, Werkzeug
answers a 308 permanent redirect; otherwise the standard 404.  The HTML
content of the two error pages is irrelevant to the claims and
abbreviated to fixed marker strings. -/
def flaskWSGI (path : String) (now : String) : Response :=
  match flaskRoute? path now with
  | some r => r
  | none =>
    if String.mk (collapseSlashes path.data) ≠ path ∧
        (flaskRoute? (String.mk (collapseSlashes path.data)) now).isSome then
      { status := 308
        contentType := some "text/html; charset=utf-8"
        body := Body.html "Permanent Redirect" }
    else
      { status := 404
        contentType := some "text/html; charset=utf-8"
        body := Body.html "Not Found" }

/-- The full request handling of `app.py`: the WSGI layer splits the
raw request target at the first `?` and percent-decodes the path part
into `PATH_INFO` (PEP 3333), on which the Werkzeug rule map then
matches.  `server.py`, in contrast, compares the raw target directly. -/
def flaskDispatch (target : String) (now : String) : Response :=
  flaskWSGI (String.mk (percentDecodeList (requestPath target).data)) now

/-- Looks a field up in a JSON object body: `some v` when the response
body is a JSON object whose first field named `k` has value `v`. -/
def fieldOf (r : Response) (k : String) : Option Json :=
  match r.body with
  | Body.json (Json.obj fields) =>
      (fields.find? (fun f => f.fst == k)).map (fun f => f.snd)
  | _ => none

/-- Embeds `SimpleHandler.log_message` from `server.py`: a print of the
fixed tag `[Backend]`, then `self.address_string()`, then a dash, then
the formatted message `format % args` passed by the caller. -/
def logMessage (address msg : String) : String :=
  "[Backend] " ++ address ++ " - " ++ msg

/-- Embeds `BaseHTTPRequestHandler.log_request` from the CPython module
`http/server.py` (the framework that `server.py` subclasses), which
every `send_response` call invokes once.  It calls `log_message` with
the format `"%s" %s %s` applied to the request line, the status code
and the size (the size defaults to a dash).  Composed with the
`log_message` override in `SimpleHandler`, this is the one line printed
per request. -/
def logRequestLine (address requestline : String) (code : Nat) (size : String) : String :=
  logMessage address ("\"" ++ requestline ++ "\" " ++ toString code ++ " " ++ size)

/-- The line format the specification claims: the fixed tag, the client
address and the raw HTTP request line, and nothing else. -/
def specLogLine (address requestline : String) : String :=
  "[Backend] " ++ address ++ " - " ++ requestline

/-- The standard-output lines produced while one parsed request is
handled, read off `handle_one_request`, `send_response`, `send_error`,
`log_request` and `log_error` of the CPython module `http/server.py`
composed with the `log_message` override: every branch of `do_GET`
calls `send_response` exactly once, which logs exactly one line through
`log_request`; a request with any other command is answered by
`send_error(501, ...)`, which first logs a code-and-message line
through `log_error` and then the request line through its own
`send_response` call.  The stdlib quoting punctuation around the method
name inside the 501 message is omitted, as in `handleRequest`. -/
def requestLogLines (method path now address requestline : String) : List String :=
  if method = "GET" then
    [logRequestLine address requestline (serverDoGET path now).status "-"]
  else
    [logMessage address ("code 501, message Unsupported method " ++ method),
     logRequestLine address requestline 501 "-"]

/-- Embeds the method dispatch of
`BaseHTTPRequestHandler.handle_one_request` (CPython `http/server.py`)
as instantiated by `SimpleHandler`, which defines `do_GET` and nothing
else: a parsed request whose command has a matching `do_<command>`
method is handed to it; any other command gets
`send_error(501, "Unsupported method <command>")`, which answers 501
with `Content-Type: text/html;charset=utf-8` and an HTML error page
rendered from `DEFAULT_ERROR_MESSAGE` (abbreviated here to its
distinguishing message). -/
def handleRequest (method path now : String) : Response :=
  if method = "GET" then serverDoGET path now
  else { status := 501
         contentType := some "text/html;charset=utf-8"
         body := Body.html ("Unsupported method " ++ method) }

/-- The common part of the two implementations' `/` payloads: a greeting
`message`, the `timestamp`, and `status: "running"`. -/
def homeBaseFields (greeting now : String) : List (String × Json) :=
  [("message", Json.str greeting),
   ("timestamp", Json.str now),
   ("status", Json.str "running")]

/-- C1: for every GET request, `server.py` responds 200 exactly when the
request path is exactly one of `/`, `/api/data`, `/health` (dispatch is
by exact string equality); any other path yields a 404 with empty body. -/
theorem claim_C1_exact_route_dispatch (path now : String) :
    ((serverDoGET path now).status = 200 ↔
      (path = "/" ∨ path = "/api/data" ∨ path = "/health")) ∧
    (¬ (path = "/" ∨ path = "/api/data" ∨ path = "/health") →
      serverDoGET path now = notFoundResponse) := by
  unfold serverDoGET
  split_ifs with h1 h2 h3 <;> simp_all [notFoundResponse]

/-- Witness for C1 at the concrete unmatched path `/nonexistent`. -/
theorem claim_C1_exact_route_dispatch_witness :
    serverDoGET "/nonexistent" "2024-01-01T00:00:00" = notFoundResponse :=
  (claim_C1_exact_route_dispatch "/nonexistent" "2024-01-01T00:00:00").2 (by decide)

/-- C2: every GET request to `/api/data` returns 200 with a JSON body
holding exactly the `items` list with ids 1, 2, 3 and names Item 1,
Item 2, Item 3 in that order, and nothing else; this holds for both
`server.py` and `app.py`. -/
theorem claim_C2_api_data_payload (now : String) :
    serverDoGET "/api/data" now =
      { status := 200
        contentType := some "application/json"
        body := Body.json (Json.obj
          [("items", Json.arr
            [Json.obj [("id", Json.int 1), ("name", Json.str "Item 1")],
             Json.obj [("id", Json.int 2), ("name", Json.str "Item 2")],
             Json.obj [("id", Json.int 3), ("name", Json.str "Item 3")]])]) } ∧
    flaskDispatch "/api/data" now = serverDoGET "/api/data" now :=
  ⟨rfl, rfl⟩

/-- C3: every GET request to `/health` returns 200 with body exactly
the object with the single field `status` set to `healthy`, identically
on repeated calls whatever the clock reads, in both implementations. -/
theorem claim_C3_health_idempotent (now now2 : String) :
    serverDoGET "/health" now = serverDoGET "/health" now2 ∧
    serverDoGET "/health" now =
      { status := 200
        contentType := some "application/json"
        body := Body.json (Json.obj [("status", Json.str "healthy")]) } ∧
    flaskDispatch "/health" now = serverDoGET "/health" now :=
  ⟨rfl, rfl, rfl⟩

/-- C4: every GET request to `/` returns 200 with a JSON body holding a
string greeting `message`, a `timestamp` equal to the clock value taken
at response time, and `status` set to `running`; a string `proxied_by`
field may additionally be present (it is, in `server.py`) and no other
fields occur.  Both implementations satisfy this. -/
theorem claim_C4_home_shape (now : String) :
    ((serverDoGET "/" now).status = 200 ∧
     (serverDoGET "/" now).contentType = some "application/json" ∧
     ∃ greeting proxier, (serverDoGET "/" now).body =
        Body.json (Json.obj
          (homeBaseFields greeting now ++ [("proxied_by", Json.str proxier)]))) ∧
    ((flaskDispatch "/" now).status = 200 ∧
     (flaskDispatch "/" now).contentType = some "application/json" ∧
     ∃ greeting, (flaskDispatch "/" now).body =
        Body.json (Json.obj (homeBaseFields greeting now))) :=
  ⟨⟨rfl, rfl, "Hello from Python backend!", "KDeps WebServer", rfl⟩,
   ⟨rfl, rfl, "Hello from Flask backend!", rfl⟩⟩

/-- C5 counterexample: a POST request to `/` is answered by the
framework dispatch with status 501 (Unsupported method), not with the
404 and empty body the claim states for every non-GET request. -/
theorem claim_C5_counterexample :
    ¬ ((handleRequest "POST" "/" "2024-01-01T00:00:00").status = 404 ∧
       (handleRequest "POST" "/" "2024-01-01T00:00:00").body = Body.empty) :=
  fun h => absurd h.1 (by decide)

/-- C5 (amended): a GET request whose path is not in the route table is
answered 404 with an empty body; a request with any other method, to
any path whatsoever, is answered by the standard library handler with
status 501 and a non-empty HTML error body, because `SimpleHandler`
defines only `do_GET`. -/
theorem claim_C5_unmatched_requests (method path now : String) :
    ((path ≠ "/" ∧ path ≠ "/api/data" ∧ path ≠ "/health") →
      handleRequest "GET" path now = notFoundResponse) ∧
    (method ≠ "GET" →
      (handleRequest method path now).status = 501 ∧
      (handleRequest method path now).body ≠ Body.empty) := by
  constructor
  · intro hp
    show (if ("GET" : String) = "GET" then serverDoGET path now else _) = _
    rw [if_pos rfl]
    unfold serverDoGET
    rw [if_neg hp.1, if_neg hp.2.1, if_neg hp.2.2]
  · intro hm
    unfold handleRequest
    rw [if_neg hm]
    exact ⟨rfl, fun h => Body.noConfusion h⟩

/-- Witness for C5 (amended) at the concrete requests GET `/nope` and
POST `/` (a route path, exercising the 501 branch there). -/
theorem claim_C5_unmatched_requests_witness :
    handleRequest "GET" "/nope" "T" = notFoundResponse ∧
    (handleRequest "POST" "/" "T").status = 501 := by
  have h1 := claim_C5_unmatched_requests "POST" "/nope" "T"
  have h2 := claim_C5_unmatched_requests "POST" "/" "T"
  exact ⟨h1.1 ⟨by decide, by decide, by decide⟩, (h2.2 (by decide)).1⟩

/-- C6 counterexample: for the request line `GET / HTTP/1.1` answered
200, the line actually printed also contains the quoted request line,
the status code and the size marker, so it is not the claimed
tag-address-requestline line. -/
theorem claim_C6_counterexample :
    logRequestLine "127.0.0.1" "GET / HTTP/1.1" 200 "-" ≠
      specLogLine "127.0.0.1" "GET / HTTP/1.1" := by decide

/-- C6 (amended): every line printed carries the tag, the client
address and a dash, followed by the message the framework logger
formatted.  A GET request prints exactly one line, whose message is the
request line surrounded by double quotes, the status code of the
response, and the size marker; a request with any other method prints
exactly two lines, the code-and-message line of `log_error` and then
the 501 request line.  Logging is a pure observation: it takes no part
in building the response. -/
theorem claim_C6_log_line_format (method path now address requestline : String) :
    requestLogLines "GET" path now address requestline =
      ["[Backend] " ++ address ++ " - \"" ++ requestline ++ "\" "
         ++ toString (serverDoGET path now).status ++ " " ++ "-"] ∧
    (method ≠ "GET" →
      requestLogLines method path now address requestline =
        ["[Backend] " ++ address ++ " - code 501, message Unsupported method "
           ++ method,
         "[Backend] " ++ address ++ " - \"" ++ requestline ++ "\" "
           ++ "501" ++ " " ++ "-"]) := by
  have hlit : ∀ s : String, (" - " : String) ++ ("\"" ++ s) = " - \"" ++ s := by
    intro s
    rw [← String.append_assoc]
    rfl
  have hmsg : ∀ s : String,
      (" - " : String) ++ ("code 501, message Unsupported method " ++ s) =
        " - code 501, message Unsupported method " ++ s := by
    intro s
    rw [← String.append_assoc]
    rfl
  have hcode : toString (501 : Nat) = "501" := rfl
  constructor
  · simp [requestLogLines, logRequestLine, logMessage, String.append_assoc, hlit]
  · intro hm
    simp [requestLogLines, logRequestLine, logMessage, hm, String.append_assoc,
      hlit, hmsg, hcode]

/-- Witness for C6 (amended) at a concrete POST request, exercising the
two-line branch. -/
theorem claim_C6_log_line_format_witness :
    requestLogLines "POST" "/" "T" "127.0.0.1" "POST / HTTP/1.1" =
      ["[Backend] 127.0.0.1 - code 501, message Unsupported method POST",
       "[Backend] 127.0.0.1 - \"POST / HTTP/1.1\" 501 -"] := by
  rw [(claim_C6_log_line_format "POST" "/" "T" "127.0.0.1" "POST / HTTP/1.1").2
    (by decide)]
  rfl

/-- C7: the timestamp in the `/` response equals the clock value read
during that request (fresh, not cached), in both implementations; with
the clock modelled as a non-decreasing input, the timestamps of two
sequential calls are non-decreasing. -/
theorem claim_C7_timestamp_fresh_monotone (t1 t2 : String) (h : t1 ≤ t2) :
    fieldOf (serverDoGET "/" t1) "timestamp" = some (Json.str t1) ∧
    fieldOf (flaskDispatch "/" t1) "timestamp" = some (Json.str t1) ∧
    ∃ s1 s2,
      fieldOf (serverDoGET "/" t1) "timestamp" = some (Json.str s1) ∧
      fieldOf (serverDoGET "/" t2) "timestamp" = some (Json.str s2) ∧
      s1 ≤ s2 :=
  ⟨rfl, rfl, t1, t2, rfl, rfl, h⟩

/-- Witness for C7 at a concrete clock reading (two sequential calls at
the same second, the boundary case of a non-decreasing clock). -/
theorem claim_C7_timestamp_fresh_monotone_witness :
    fieldOf (serverDoGET "/" "2024-01-01T00:00:00") "timestamp" =
      some (Json.str "2024-01-01T00:00:00") :=
  (claim_C7_timestamp_fresh_monotone
    "2024-01-01T00:00:00" "2024-01-01T00:00:00" (le_refl _)).1

/-- C8: routing and response generation are total over all path
strings: every outcome is either a 200 or exactly the 404 response with
empty body, so no branch other than 404 can fail. -/
theorem claim_C8_router_total (path now : String) :
    (serverDoGET path now).status = 200 ∨
      serverDoGET path now = notFoundResponse := by
  unfold serverDoGET
  split_ifs <;> simp

/-- A request target without a query separator is its own path. -/
theorem requestPath_eq_self (target : String) (h : '?' ∉ target.data) :
    requestPath target = target := by
  unfold requestPath
  have ht : target.data.takeWhile (fun c => c != '?') = target.data :=
    List.takeWhile_eq_self_iff.mpr (fun x hx => by
      simp only [bne_iff_ne, ne_eq]
      exact fun he => h (he ▸ hx))
  rw [ht]

/-- Appending a query string to any target puts a question mark among
its characters. -/
theorem query_char_mem (route q : String) : '?' ∈ (route ++ "?" ++ q).data := by
  rw [String.data_append, String.data_append]
  exact List.mem_append.mpr (Or.inl (List.mem_append.mpr (Or.inr (by decide))))

/-- C9 counterexample: the target `/%68ealth` carries no query string,
yet `server.py` answers it 404 (raw exact comparison) while the Flask
variant answers it 200, because the WSGI layer percent-decodes the path
to `/health` before the rule map matches. -/
theorem claim_C9_counterexample :
    '?' ∉ "/%68ealth".data ∧
    (serverDoGET "/%68ealth" "T").status = 404 ∧
    (flaskDispatch "/%68ealth" "T").status = 200 :=
  ⟨by decide, rfl, rfl⟩

/-- C9 (amended): the two implementations agree up to the documented
differences on every target the WSGI layer passes through unchanged:
for every request path without a query string, without percent-escapes
(percent-decoding leaves it unchanged) and without repeated slashes
(slash merging leaves it unchanged), the statuses agree; the bodies on
`/api/data` and `/health` are identical; and the `/` bodies share the
message, timestamp and status fields, with exactly the `server.py`
variant adding the `proxied_by` field and the greeting strings
differing. -/
theorem claim_C9_implementations_equivalent (target now : String)
    (hq : '?' ∉ target.data)
    (hd : percentDecodeList target.data = target.data)
    (hs : collapseSlashes target.data = target.data) :
    (serverDoGET target now).status = (flaskDispatch target now).status ∧
    (serverDoGET "/api/data" now).body = (flaskDispatch "/api/data" now).body ∧
    (serverDoGET "/health" now).body = (flaskDispatch "/health" now).body ∧
    (serverDoGET "/" now).body =
      Body.json (Json.obj (homeBaseFields "Hello from Python backend!" now ++
        [("proxied_by", Json.str "KDeps WebServer")])) ∧
    (flaskDispatch "/" now).body =
      Body.json (Json.obj (homeBaseFields "Hello from Flask backend!" now)) := by
  refine ⟨?_, rfl, rfl, rfl, rfl⟩
  have hpath : String.mk (percentDecodeList (requestPath target).data) = target := by
    rw [requestPath_eq_self target hq]
    rw [hd]
  unfold flaskDispatch
  rw [hpath]
  by_cases h1 : target = "/"
  · rw [h1]
    rfl
  by_cases h2 : target = "/api/data"
  · rw [h2]
    rfl
  by_cases h3 : target = "/health"
  · rw [h3]
    rfl
  have hnone : flaskRoute? target now = none := by
    unfold flaskRoute?
    rw [if_neg h1, if_neg h2, if_neg h3]
  have hserver : (serverDoGET target now).status = 404 := by
    unfold serverDoGET
    rw [if_neg h1, if_neg h2, if_neg h3]
    rfl
  have hmerge : String.mk (collapseSlashes target.data) = target := by
    rw [hs]
  have hflask : (flaskWSGI target now).status = 404 := by
    unfold flaskWSGI
    rw [hnone, hmerge]
    simp
  rw [hserver, hflask]

/-- Witness for C9 (amended) at the concrete target `/other`, free of
query string, percent-escapes and repeated slashes. -/
theorem claim_C9_implementations_equivalent_witness :
    (serverDoGET "/other" "T").status = (flaskDispatch "/other" "T").status :=
  (claim_C9_implementations_equivalent "/other" "T"
    (by decide) (by decide) (by decide)).1

/-- C10: in `server.py`, a GET request to a known route with a query
string appended is answered 404 with an empty body, because dispatch
compares the full request target, query string included, against the
three route strings. -/
theorem claim_C10_query_string_rejected (route q now : String)
    (h : route = "/" ∨ route = "/api/data" ∨ route = "/health") :
    serverDoGET (route ++ "?" ++ q) now = notFoundResponse := by
  have hq : '?' ∈ (route ++ "?" ++ q).data := query_char_mem route q
  have h1 : route ++ "?" ++ q ≠ "/" := by
    intro he
    rw [he] at hq
    exact absurd hq (by decide)
  have h2 : route ++ "?" ++ q ≠ "/api/data" := by
    intro he
    rw [he] at hq
    exact absurd hq (by decide)
  have h3 : route ++ "?" ++ q ≠ "/health" := by
    intro he
    rw [he] at hq
    exact absurd hq (by decide)
  unfold serverDoGET
  rw [if_neg h1, if_neg h2, if_neg h3]

/-- Witness for C10 at the concrete target built from `/api/data` and
the query string `page=1`. -/
theorem claim_C10_query_string_rejected_witness :
    serverDoGET ("/api/data" ++ "?" ++ "page=1") "T" = notFoundResponse :=
  claim_C10_query_string_rejected "/api/data" "page=1" "T" (Or.inr (Or.inl rfl))
